import Mathlib

/-!
Shallow embedding of the AUBus server core (server/database.py, server/server.py,
client/api_client.py).

The SQLite tables become lists of rows inside a `DB` structure; every database
helper and server handler is translated as a pure function from `DB` (plus the
request payload and, where the source calls `datetime.utcnow()`, an explicit
`now` parameter) to a new `DB` together with the response written to the caller
and the push notifications attempted to other users.  Times of day are minutes
since midnight (the source stores zero-padded "HH:MM" strings, whose SQL string
ordering coincides with numeric order of minutes); absolute timestamps are
minutes as `Int`.  The server serializes all handlers through `db_lock`, so a
serialized sequence of handler applications is the faithful model of concurrent
requests.
-/

/-- Days of the week, as stored in the `day` columns and produced by
`strftime("%A")` in `find_drivers`. -/
inductive Weekday
  | monday
  | tuesday
  | wednesday
  | thursday
  | friday
  | saturday
  | sunday
deriving DecidableEq

/-- Calendar successor of a day of the week.  Modelled from the spec: the
"next day" of the two-bucket midnight-crossover window (what the source's
`next_day_str` is evidently meant to compute). -/
def calendarNextDay : Weekday → Weekday
  | .monday => .tuesday
  | .tuesday => .wednesday
  | .wednesday => .thursday
  | .thursday => .friday
  | .friday => .saturday
  | .saturday => .sunday
  | .sunday => .monday

/-- database.py line 432, `next_day_str`:
`(datetime.strptime(day, "%A") + timedelta(days=1)).strftime("%A")`.
Python's `strptime` with only `%A` validates the weekday name but ignores it —
the result is always 1900-01-01, a Monday — so adding one day lands on
Tuesday, 1900-01-02, and the whole expression evaluates to the constant
"Tuesday" for every input day. -/
def next_day_str : Weekday → Weekday :=
  fun _ => .tuesday

/-- ASCII lower-casing of one character, as Python `str.lower` / SQL `lower`
act on the ASCII identifiers used for directions and areas. -/
def lowerChar (c : Char) : Char :=
  if 'A' ≤ c ∧ c ≤ 'Z' then Char.ofNat (c.toNat + 32) else c

/-- One character of `lower(replace(x, '_', ' '))`: the underscore becomes a
space, everything is lower-cased. -/
def normChar (c : Char) : Char :=
  lowerChar (if c = '_' then ' ' else c)

/-- Whitespace characters removed by Python `str.strip()`. -/
def isSpaceChar (c : Char) : Bool :=
  c = ' ' ∨ c = '\t' ∨ c = '\n' ∨ c = '\r'

/-- Python `x.lower()` on the character list of a string. -/
def lowerStr (s : String) : String :=
  ⟨s.data.map lowerChar⟩

/-- SQL `lower(replace(x, '_', ' '))`, applied by `find_drivers` to the
schedule-side `direction` and `area` columns (database.py lines 442-443,
461-463). -/
def normalizeSched (s : String) : String :=
  ⟨s.data.map normChar⟩

/-- Python `x.strip()`. -/
def stripStr (s : String) : String :=
  ⟨(((s.data.dropWhile isSpaceChar).reverse).dropWhile isSpaceChar).reverse⟩

/-- Request-side direction normalization in `find_drivers` (line 423):
`(direction or "").lower().replace('_', ' ').strip()`. -/
def normDirection (direction : String) : String :=
  stripStr (normalizeSched direction)

/-- Request-side area normalization in `find_drivers` (line 424):
`(passenger_area or "").lower().strip()` — note: no underscore replacement. -/
def normAreaReq (passengerArea : String) : String :=
  stripStr (lowerStr passengerArea)

/-- Row of the `users` table (the columns the core consults). -/
structure User where
  id : Nat
  username : String
  isDriver : Bool
  area : Option String
  minRating : Int
  roleSelected : Bool
deriving DecidableEq

/-- Row of the `schedules` table. -/
structure Schedule where
  userId : Nat
  day : Weekday
  time : Nat
  direction : String
  area : Option String
deriving DecidableEq

/-- Row of the `rides` table. -/
structure Ride where
  id : Nat
  passengerId : Option Nat
  driverId : Option Nat
  day : Weekday
  time : Nat
  area : String
  status : String
  requestedAt : Option Int
  startedAt : Option Int
  completedAt : Option Int
deriving DecidableEq

/-- Row of the `ride_offers` table. -/
structure RideOffer where
  rideId : Nat
  driverId : Nat
deriving DecidableEq

/-- Row of the `ratings` table. -/
structure Rating where
  ratedUserId : Option Nat
  raterUserId : Nat
  rating : Int
  role : String
  rideId : Nat
deriving DecidableEq

/-- The persistent store: one list per table, plus the AUTOINCREMENT counter
for ride ids. -/
structure DB where
  users : List User
  schedules : List Schedule
  rides : List Ride
  rideOffers : List RideOffer
  ratings : List Rating
  nextRideId : Nat
deriving DecidableEq

/-- database.py `get_user_by_id`. -/
def get_user_by_id (db : DB) (userId : Nat) : Option User :=
  db.users.find? (fun u => decide (u.id = userId))

/-- database.py `get_ride_by_id`. -/
def get_ride_by_id (db : DB) (rideId : Nat) : Option Ride :=
  db.rides.find? (fun r => decide (r.id = rideId))

/-- database.py `get_average_rating`: `SELECT AVG(rating) ... WHERE
rated_user_id=? AND role=?`, with `avg or 0` mapping the empty (NULL) case to
0.  The same expression also appears inline in `find_drivers` as
`COALESCE(AVG(r.rating), 0)` over the `LEFT JOIN` — the join fan-out over
schedule rows repeats every rating the same number of times, which leaves the
mean unchanged, so both compute this value. -/
def get_average_rating (db : DB) (userId : Nat) (role : String) : ℚ :=
  let rs := (db.ratings.filter
    (fun r => decide (r.ratedUserId = some userId) && decide (r.role = role))).map (·.rating)
  if rs.isEmpty then 0 else (rs.foldl (· + ·) 0 : Int) / (rs.length : ℚ)

/-- Time-window test of `find_drivers` on one schedule row.  `t` is the
request time in minutes; `(t + 15) % 1440` is `time_plus_15`.  The branch on
`time_plus_15 < time_obj` is the source's midnight-crossover test (line 431):
crossover uses `(s.day=day AND s.time >= t) OR (s.day=next_day_str AND s.time <
wrapped)` — with `next_day_str` the constant Tuesday the source actually
computes — otherwise `s.day=day AND t <= s.time < t+15`. -/
def matchWindow (day : Weekday) (t : Nat) (s : Schedule) : Bool :=
  let tp := (t + 15) % 1440
  if tp < t then
    (decide (s.day = day) && decide (t ≤ s.time)) ||
      (decide (s.day = next_day_str day) && decide (s.time < tp))
  else
    decide (s.day = day) && decide (t ≤ s.time) && decide (s.time < tp)

/-- Full per-schedule-row condition of the `find_drivers` query for a driver
`uid`: the row belongs to the driver, direction and area match after the
source's normalizations (schedule side `lower(replace(·, '_', ' '))`, request
side as in `normDirection` / `normAreaReq`; a NULL schedule area never
matches), and the time window holds. -/
def schedMatches (normDir normArea : String) (day : Weekday) (t : Nat)
    (uid : Nat) (s : Schedule) : Bool :=
  decide (s.userId = uid) &&
  decide (normalizeSched s.direction = normDir) &&
  (match s.area with
   | some a => decide (normalizeSched a = normArea)
   | none => false) &&
  matchWindow day t s

/-- database.py `find_drivers`: returns the ids of users with `is_driver=1`
having at least one schedule row matching direction/area/window, whose
aggregate driver rating satisfies `HAVING avg_rating >= min_rating`.  The
`GROUP BY u.id` of the source yields each driver once; the time string is
modelled already parsed (a string `strptime` rejects makes the source return
`[]` before touching the database). -/
def find_drivers (db : DB) (direction : String) (day : Weekday) (t : Nat)
    (passengerArea : String) (minRating : Int) : List Nat :=
  let normDir := normDirection direction
  let normArea := normAreaReq passengerArea
  (db.users.filter (fun u =>
    u.isDriver &&
    db.schedules.any (schedMatches normDir normArea day t u.id) &&
    decide ((minRating : ℚ) ≤ get_average_rating db u.id "driver"))).map (·.id)

/-- database.py `create_ride_request`: no ride is inserted when `driver_ids`
is empty; otherwise a `PENDING` ride with NULL driver id is appended together
with one offer row per driver.  The `direction` argument is accepted and
ignored, as in the source. -/
def create_ride_request (db : DB) (passengerId : Nat) (direction : String)
    (day : Weekday) (t : Nat) (area : String) (driverIds : List Nat)
    (now : Int) : DB × Option Nat :=
  if driverIds.isEmpty then (db, none)
  else
    let rid := db.nextRideId
    let ride : Ride :=
      { id := rid, passengerId := some passengerId, driverId := none,
        day := day, time := t, area := area, status := "PENDING",
        requestedAt := some now, startedAt := none, completedAt := none }
    ({ db with
        rides := db.rides ++ [ride],
        rideOffers := db.rideOffers ++ driverIds.map (fun d => ⟨rid, d⟩),
        nextRideId := rid + 1 }, some rid)

/-- database.py `accept_ride_request`: collects the other offer-holders, sets
the ride's driver id and status `ACCEPTED`, and deletes every offer row of the
ride. -/
def accept_ride_request (db : DB) (rideId driverId : Nat) : DB × List Nat :=
  let otherDriverIds :=
    ((db.rideOffers.filter (fun o => decide (o.rideId = rideId))).map (·.driverId)).filter
      (fun d => !(decide (d = driverId)))
  let rides' := db.rides.map (fun r =>
    if decide (r.id = rideId) then { r with driverId := some driverId, status := "ACCEPTED" } else r)
  let offers' := db.rideOffers.filter (fun o => !(decide (o.rideId = rideId)))
  ({ db with rides := rides', rideOffers := offers' }, otherDriverIds)

/-- database.py `update_ride_status`. -/
def update_ride_status (db : DB) (rideId : Nat) (status : String) : DB :=
  { db with rides := db.rides.map (fun r =>
      if decide (r.id = rideId) then { r with status := status } else r) }

/-- database.py `set_user_role`: sets the driver flag from the role string,
replaces the area, marks the role selected, and overwrites `min_rating` only
when one was supplied. -/
def set_user_role (db : DB) (userId : Nat) (role : String) (area : Option String)
    (minRating : Option Int) : DB :=
  { db with users := db.users.map (fun u =>
      if decide (u.id = userId) then
        { u with isDriver := decide (role = "driver"), area := area,
                 roleSelected := true, minRating := minRating.getD u.minRating }
      else u) }

/-- Replacement of the one `ratings` row fetched by the upsert's SELECT (the
first row with the given ride and rater): only `rated_user_id`, `rating` and
`role` are overwritten. -/
def updateFirstRating (rideId rater : Nat) (rated : Option Nat) (rating : Int)
    (role : String) : List Rating → List Rating
  | [] => []
  | r :: rs =>
    if decide (r.rideId = rideId) && decide (r.raterUserId = rater) then
      { r with ratedUserId := rated, rating := rating, role := role } :: rs
    else
      r :: updateFirstRating rideId rater rated rating role rs

/-- database.py `upsert_rating`: update the existing (ride, rater) row when
there is one, otherwise insert a fresh row. -/
def upsert_rating (db : DB) (rated : Option Nat) (rater : Nat) (rating : Int)
    (role : String) (rideId : Nat) : DB :=
  if db.ratings.any (fun r => decide (r.rideId = rideId) && decide (r.raterUserId = rater)) then
    { db with ratings := updateFirstRating rideId rater rated rating role db.ratings }
  else
    { db with ratings := db.ratings ++ [⟨rated, rater, rating, role, rideId⟩] }

/-- server.py `RATING_WINDOW = timedelta(hours=36)`, in minutes. -/
def ratingWindowMinutes : Int := 36 * 60

/-- server.py `can_edit_rating`: a ride with no completion timestamp is not
ratable; otherwise `utcnow() - completed <= RATING_WINDOW`. -/
def can_edit_rating (now : Int) (ride : Ride) : Bool :=
  match ride.completedAt with
  | none => false
  | some c => decide (now - c ≤ ratingWindowMinutes)

/-- A wire message written back on a connection: the `type` string plus the
payload fields the verified claims inspect (`status` and `reason`). -/
structure OutMsg where
  type : String
  status : Option String := none
  reason : Option String := none
deriving DecidableEq

/-- Result of one server handler run: the database after the handler, the
response sent to the requesting connection, and the push notifications
attempted via `send_to_username` (keyed by the recipient's user id; the source
sends only when the recipient is connected, which does not affect stored
state). -/
structure HandlerResult where
  db : DB
  resp : OutMsg
  pushes : List (Nat × OutMsg)
deriving DecidableEq

/-- server.py `handle_driver_response`.  Payload fields arrive as `Option`s as
in `p.get(...)`; `inferredId` stands for the user id the source recovers from
the in-memory `clients` map when the payload lacks `driver_id`.  While the
ride is `PENDING`, `ACCEPTED` runs `accept_ride_request` and pushes the
acceptance to the passenger and `RIDE_UNAVAILABLE` to the other offer-holders;
any other status is the deny branch, which mutates nothing and only notifies
the passenger.  A missing or non-`PENDING` ride yields the `CLOSED` response. -/
def handle_driver_response (db : DB) (rideId? : Option Nat) (status? : Option String)
    (driverId? : Option Nat) (inferredId : Option Nat) : HandlerResult :=
  match rideId?, status? with
  | some rideId, some status =>
    match (match driverId? with | some d => some d | none => inferredId) with
    | none =>
      ⟨db, ⟨"DRIVER_RESPONSE_OK", some "ERROR",
            some "driver_id missing and could not be inferred"⟩, []⟩
    | some driverId =>
      match get_ride_by_id db rideId with
      | none => ⟨db, ⟨"DRIVER_RESPONSE_OK", some "CLOSED", none⟩, []⟩
      | some ride =>
        if ride.status ≠ "PENDING" then
          ⟨db, ⟨"DRIVER_RESPONSE_OK", some "CLOSED", none⟩, []⟩
        else if status = "ACCEPTED" then
          let res := accept_ride_request db rideId driverId
          let passengerPush :=
            match ride.passengerId with
            | some pid =>
              match get_user_by_id res.1 pid with
              | some _ => [(pid, (⟨"DRIVER_RESPONSE", some "ACCEPTED", none⟩ : OutMsg))]
              | none => []
            | none => []
          let otherPushes := res.2.filterMap (fun od =>
            (get_user_by_id res.1 od).map (fun _ => (od, (⟨"RIDE_UNAVAILABLE", none, none⟩ : OutMsg))))
          ⟨res.1, ⟨"DRIVER_RESPONSE_OK", some "ACCEPTED", none⟩,
           passengerPush ++ otherPushes⟩
        else
          let passengerPush :=
            match ride.passengerId with
            | some pid =>
              match get_user_by_id db pid with
              | some _ => [(pid, (⟨"DRIVER_RESPONSE", some "DENIED", none⟩ : OutMsg))]
              | none => []
            | none => []
          ⟨db, ⟨"DRIVER_RESPONSE_OK", some "DENIED", none⟩, passengerPush⟩
  | _, _ =>
    ⟨db, ⟨"DRIVER_RESPONSE_OK", some "ERROR", some "missing ride_id or status"⟩, []⟩

/-- server.py `handle_cancel_ride`: rejects a missing id, a missing ride, and
a `COMPLETED` ride; otherwise sets status `CANCELLED` (note: it deletes no
`ride_offers` rows) and notifies whichever of passenger and driver resolve. -/
def handle_cancel_ride (db : DB) (rideId? : Option Nat) : HandlerResult :=
  match rideId? with
  | none => ⟨db, ⟨"CANCEL_RIDE_FAIL", none, some "ride_id missing"⟩, []⟩
  | some rideId =>
    match get_ride_by_id db rideId with
    | none => ⟨db, ⟨"CANCEL_RIDE_FAIL", none, some "ride not found"⟩, []⟩
    | some ride =>
      if ride.status = "COMPLETED" then
        ⟨db, ⟨"CANCEL_RIDE_FAIL", none, some "ride already completed"⟩, []⟩
      else
        let db' := update_ride_status db rideId "CANCELLED"
        let pPush :=
          match ride.passengerId with
          | some pid =>
            match get_user_by_id db' pid with
            | some _ => [(pid, (⟨"RIDE_CANCELLED", none, none⟩ : OutMsg))]
            | none => []
          | none => []
        let dPush :=
          match ride.driverId with
          | some did =>
            match get_user_by_id db' did with
            | some _ => [(did, (⟨"RIDE_CANCELLED", none, none⟩ : OutMsg))]
            | none => []
          | none => []
        ⟨db', ⟨"CANCEL_RIDE_OK", none, none⟩, pPush ++ dPush⟩

/-- Passenger-side minimum-driver-rating preference used by
`handle_broadcast_ride_request`: the requester's stored `min_rating`, 0 when
the user row is missing. -/
def passengerMinOf (db : DB) (passengerId : Nat) : Int :=
  match get_user_by_id db passengerId with
  | some u => u.minRating
  | none => 0

/-- Passenger's aggregate passenger rating as computed in
`handle_broadcast_ride_request` (0 when the user row is missing). -/
def passengerAvgOf (db : DB) (passengerId : Nat) : ℚ :=
  match get_user_by_id db passengerId with
  | some _ => get_average_rating db passengerId "passenger"
  | none => 0

/-- The two-sided filter of `handle_broadcast_ride_request`: the candidates
from `find_drivers` (already thresholded by the passenger's minimum driver
rating) restricted to drivers whose own `min_rating` does not exceed the
passenger's average passenger rating. -/
def eligible_drivers (db : DB) (passengerId : Nat) (direction : String)
    (day : Weekday) (t : Nat) (area : String) : List Nat :=
  let passengerAvg := passengerAvgOf db passengerId
  (find_drivers db direction day t area (passengerMinOf db passengerId)).filter
    (fun d =>
      let drvMin : Int :=
        match get_user_by_id db d with
        | some u => u.minRating
        | none => 0
      decide ((drvMin : ℚ) ≤ passengerAvg))

/-- server.py `handle_broadcast_ride_request`: answers `NO_DRIVERS_FOUND` and
stores nothing when `find_drivers` returns nothing or the two-sided rating
filter empties the list; otherwise persists the ride with its offers via
`create_ride_request`, pushes `RIDE_REQUEST` to every eligible driver and
answers `BROADCAST_OK`. -/
def handle_broadcast_ride_request (db : DB) (passengerId : Nat)
    (direction : String) (day : Weekday) (t : Nat) (area : String)
    (now : Int) : HandlerResult :=
  let drivers := find_drivers db direction day t area (passengerMinOf db passengerId)
  if drivers.isEmpty then ⟨db, ⟨"NO_DRIVERS_FOUND", none, none⟩, []⟩
  else
    let eligible := eligible_drivers db passengerId direction day t area
    if eligible.isEmpty then ⟨db, ⟨"NO_DRIVERS_FOUND", none, none⟩, []⟩
    else
      let res := create_ride_request db passengerId direction day t area eligible now
      ⟨res.1, ⟨"BROADCAST_OK", none, none⟩,
       eligible.map (fun d => (d, (⟨"RIDE_REQUEST", none, none⟩ : OutMsg)))⟩

/-- server.py `handle_update_rating`: checks the ride exists, the rater is one
of its two parties, and the 36-hour window is open; then upserts the rating of
the other party. -/
def handle_update_rating (db : DB) (now : Int) (rideId raterId : Nat)
    (rating : Int) : HandlerResult :=
  match get_ride_by_id db rideId with
  | none => ⟨db, ⟨"UPDATE_RATING_FAIL", none, some "Ride not found"⟩, []⟩
  | some ride =>
    if ride.passengerId ≠ some raterId ∧ ride.driverId ≠ some raterId then
      ⟨db, ⟨"UPDATE_RATING_FAIL", none, some "Not part of this ride"⟩, []⟩
    else if ¬ can_edit_rating now ride then
      ⟨db, ⟨"UPDATE_RATING_FAIL", none, some "Rating window closed"⟩, []⟩
    else
      let rr : Option Nat × String :=
        if ride.passengerId = some raterId then (ride.driverId, "driver")
        else (ride.passengerId, "passenger")
      ⟨upsert_rating db rr.1 raterId rating rr.2 rideId,
       ⟨"UPDATE_RATING_OK", none, none⟩, []⟩

/-- server.py `handle_set_role`: a stored driver asking for any role other
than "driver" is refused before `set_user_role` runs; everything else falls
through to `set_user_role`. -/
def handle_set_role (db : DB) (userId : Nat) (role : String)
    (area : Option String) (minRating : Option Int) : HandlerResult :=
  match get_user_by_id db userId with
  | some current =>
    if current.isDriver ∧ role ≠ "driver" then
      ⟨db, ⟨"SET_ROLE_FAIL", none, some "Cannot change from driver to passenger"⟩, []⟩
    else
      ⟨set_user_role db userId role area minRating, ⟨"SET_ROLE_OK", none, none⟩, []⟩
  | none =>
    ⟨set_user_role db userId role area minRating, ⟨"SET_ROLE_OK", none, none⟩, []⟩

/-- A serialized run of `DRIVER_RESPONSE`/`ACCEPTED` attempts on one ride, one
driver after the other, as the server's `db_lock` orders them; collects each
attempt's response. -/
def processAccepts (rideId : Nat) : DB → List Nat → DB × List OutMsg
  | db, [] => (db, [])
  | db, d :: ds =>
    let res := handle_driver_response db (some rideId) (some "ACCEPTED") (some d) none
    let rest := processAccepts rideId res.db ds
    (rest.1, res.resp :: rest.2)

/-- Message arriving at the client multiplexer: the dispatcher only inspects
the `type` field. -/
structure WireMsg where
  type : String
  body : String := ""
deriving DecidableEq

/-- State of the client-side multiplexer in api_client.py: the expected-type
set of the in-flight synchronous call (`_wait_types`), the captured response
(`_wait_response`), and the FIFO of asynchronous events (`_async_events`). -/
structure MuxState where
  waitTypes : List String
  waitResponse : Option WireMsg
  asyncEvents : List WireMsg
deriving DecidableEq

/-- Outcome of the send phase of `_send_and_wait`: the new state, the frame
written to the socket (if any), and the error raised (if any). -/
structure SendStart where
  state : MuxState
  sent : Option WireMsg
  err : Option String
deriving DecidableEq

/-- api_client.py `_send_and_wait`, up to the send (lines 189-199): under the
locks, a non-empty `_wait_types` raises "Another request is already
in-flight." before anything is sent; otherwise the expectation is installed,
the pending response cleared, and the frame written. -/
def sendAndWaitStart (st : MuxState) (msg : WireMsg) (expected : List String) : SendStart :=
  if st.waitTypes ≠ [] then
    ⟨st, none, some "Another request is already in-flight."⟩
  else
    ⟨⟨expected, none, st.asyncEvents⟩, some msg, none⟩

/-- api_client.py `_recv_loop`, one received frame (lines 234-242): a frame
whose type is in the non-empty expected set becomes the synchronous response
and clears the expectation; every other frame is appended to the async event
queue. -/
def recvLoopStep (st : MuxState) (data : WireMsg) : MuxState :=
  if st.waitTypes ≠ [] ∧ data.type ∈ st.waitTypes then
    ⟨[], some data, st.asyncEvents⟩
  else
    ⟨st.waitTypes, st.waitResponse, st.asyncEvents ++ [data]⟩

/-- Character-wise version of the spec's "equal up to case and '_'/' '
substitution": both characters agree after mapping underscore to space and
lower-casing. -/
def charsEquiv : List Char → List Char → Bool
  | [], [] => true
  | c :: cs, d :: ds => decide (normChar c = normChar d) && charsEquiv cs ds
  | _, _ => false

/-- Modelled from the spec: two strings "equal up to case and '_'/' '
substitution" (the relation claim C8 says always yields a match). -/
def sepCaseEquiv (a b : String) : Bool :=
  charsEquiv a.data b.data

/-- Modelled from the spec: the midnight-crossover window
"(day, time >= t) OR (next day, time < wrapped-t+15min)". -/
def specCrossWindow (day : Weekday) (t : Nat) (s : Schedule) : Prop :=
  (s.day = day ∧ t ≤ s.time) ∨ (s.day = calendarNextDay day ∧ s.time < (t + 15) % 1440)

/-- Pending ride used by the concrete scenarios: ride 1 of passenger 5,
offered to drivers 7, 8 and 9. -/
def rideC1 : Ride :=
  { id := 1, passengerId := some 5, driverId := none, day := .monday,
    time := 480, area := "hamra", status := "PENDING",
    requestedAt := none, startedAt := none, completedAt := none }

/-- Store with the pending ride `rideC1` and its three open offers. -/
def dbC1 : DB :=
  { users :=
      [⟨5, "p5", false, some "hamra", 0, true⟩,
       ⟨7, "d7", true, some "hamra", 0, true⟩,
       ⟨8, "d8", true, some "hamra", 0, true⟩,
       ⟨9, "d9", true, some "hamra", 0, true⟩],
    schedules := [],
    rides := [rideC1],
    rideOffers := [⟨1, 7⟩, ⟨1, 8⟩, ⟨1, 9⟩],
    ratings := [],
    nextRideId := 2 }

/-- Store for the wraparound scenarios: driver 1 is scheduled Wednesday at
23:50 (minute 1430), driver 2 Thursday at 00:05 (minute 5) — the calendar day
after Wednesday — and driver 3 Tuesday at 00:05, all for direction "to aub"
in area "hamra". -/
def dbC4 : DB :=
  { users :=
      [⟨1, "d1", true, some "hamra", 0, true⟩,
       ⟨2, "d2", true, some "hamra", 0, true⟩,
       ⟨3, "d3w", true, some "hamra", 0, true⟩],
    schedules :=
      [⟨1, .wednesday, 1430, "to aub", some "hamra"⟩,
       ⟨2, .thursday, 5, "to aub", some "hamra"⟩,
       ⟨3, .tuesday, 5, "to aub", some "hamra"⟩],
    rides := [], rideOffers := [], ratings := [], nextRideId := 1 }

/-- Completed ride used by the rating-window scenarios: completed at minute 0,
passenger 5, driver 7. -/
def rideC6 : Ride :=
  { id := 2, passengerId := some 5, driverId := some 7, day := .monday,
    time := 480, area := "hamra", status := "COMPLETED",
    requestedAt := none, startedAt := none, completedAt := some 0 }

/-- Store with the completed ride `rideC6` and an existing rating by
passenger 5 on that ride. -/
def dbC6 : DB :=
  { users :=
      [⟨5, "p5", false, some "hamra", 0, true⟩,
       ⟨7, "d7", true, some "hamra", 0, true⟩],
    schedules := [], rides := [rideC6], rideOffers := [],
    ratings := [⟨some 7, 5, 3, "driver", 2⟩],
    nextRideId := 3 }

/-- Store for the separator-sensitivity scenario: driver 1's schedule area is
"hamra area" (with a space). -/
def dbC8 : DB :=
  { users := [⟨1, "d1", true, some "hamra area", 0, true⟩],
    schedules := [⟨1, .monday, 600, "to aub", some "hamra area"⟩],
    rides := [], rideOffers := [], ratings := [], nextRideId := 1 }

/-- Store with a single passenger user, for the role-change scenarios. -/
def dbC9 : DB :=
  { users := [⟨1, "alice", false, some "old area", 0, true⟩],
    schedules := [], rides := [], rideOffers := [], ratings := [],
    nextRideId := 1 }

/-- Store for the unrated-user scenarios: passenger 5 and driver 3 have no
rating rows; driver 3 is scheduled to match a Monday 08:00 request but has set
`min_rating` 1. -/
def dbC10 : DB :=
  { users :=
      [⟨5, "p5", false, some "hamra", 0, true⟩,
       ⟨3, "d3", true, some "hamra", 1, true⟩],
    schedules := [⟨3, .monday, 480, "to aub", some "hamra"⟩],
    rides := [], rideOffers := [], ratings := [], nextRideId := 1 }

theorem find?_map_ite (l : List Ride) (rid : Nat) (f : Ride → Ride)
    (hf : ∀ r, (f r).id = r.id) :
    (l.map (fun r => if decide (r.id = rid) then f r else r)).find?
        (fun r => decide (r.id = rid))
      = (l.find? (fun r => decide (r.id = rid))).map f := by
  induction l with
  | nil => rfl
  | cons a as ih =>
    rw [List.map_cons, List.find?_cons, List.find?_cons]
    by_cases h : a.id = rid
    · rw [if_pos (by simpa using h)]
      have h1 : (decide ((f a).id = rid)) = true := by
        rw [hf]; exact decide_eq_true h
      have h2 : (decide (a.id = rid)) = true := decide_eq_true h
      rw [h1, h2]
      rfl
    · have h2 : (decide (a.id = rid)) = false := decide_eq_false h
      rw [if_neg (by simpa using h), h2]
      exact ih

theorem get_ride_accept (db : DB) (rid d : Nat) :
    get_ride_by_id (accept_ride_request db rid d).1 rid
      = (get_ride_by_id db rid).map
          (fun r => { r with driverId := some d, status := "ACCEPTED" }) := by
  unfold get_ride_by_id accept_ride_request
  exact find?_map_ite db.rides rid _ (fun r => rfl)

theorem get_ride_update_status (db : DB) (rid : Nat) (st : String) :
    get_ride_by_id (update_ride_status db rid st) rid
      = (get_ride_by_id db rid).map (fun r => { r with status := st }) := by
  unfold get_ride_by_id update_ride_status
  exact find?_map_ite db.rides rid _ (fun r => rfl)

theorem driver_response_closed (db : DB) (rid d : Nat) (st : String) (r : Ride)
    (h : get_ride_by_id db rid = some r) (hs : r.status ≠ "PENDING") :
    handle_driver_response db (some rid) (some st) (some d) none
      = ⟨db, ⟨"DRIVER_RESPONSE_OK", some "CLOSED", none⟩, []⟩ := by
  simp [handle_driver_response, h, hs]

theorem processAccepts_closed (rid : Nat) (ds : List Nat) (db : DB) (r : Ride)
    (h : get_ride_by_id db rid = some r) (hs : r.status ≠ "PENDING") :
    processAccepts rid db ds
      = (db, ds.map (fun _ => ⟨"DRIVER_RESPONSE_OK", some "CLOSED", none⟩)) := by
  induction ds with
  | nil => rfl
  | cons d ds ih =>
    simp [processAccepts, driver_response_closed db rid d "ACCEPTED" r h hs, ih]

/-- C1: for every ride that is `PENDING` and every serialized sequence of
`DRIVER_RESPONSE`/`ACCEPTED` attempts on it from different drivers, exactly
the first attempt succeeds with status `ACCEPTED`, every later attempt gets
the `CLOSED` response, and the single driver id recorded on the ride is the
first driver's. -/
theorem c1_at_most_one_acceptance (db : DB) (rid : Nat) (r : Ride) (d : Nat)
    (ds : List Nat) (h : get_ride_by_id db rid = some r)
    (hp : r.status = "PENDING") (_hnd : (d :: ds).Nodup) :
    (processAccepts rid db (d :: ds)).2
        = ⟨"DRIVER_RESPONSE_OK", some "ACCEPTED", none⟩
            :: ds.map (fun _ => ⟨"DRIVER_RESPONSE_OK", some "CLOSED", none⟩)
    ∧ get_ride_by_id (processAccepts rid db (d :: ds)).1 rid
        = some { r with driverId := some d, status := "ACCEPTED" } := by
  have hacc : get_ride_by_id (accept_ride_request db rid d).1 rid
      = some { r with driverId := some d, status := "ACCEPTED" } := by
    rw [get_ride_accept, h]; rfl
  have hdb : (handle_driver_response db (some rid) (some "ACCEPTED") (some d) none).db
      = (accept_ride_request db rid d).1 := by
    simp [handle_driver_response, h, hp]
  have hresp : (handle_driver_response db (some rid) (some "ACCEPTED") (some d) none).resp
      = ⟨"DRIVER_RESPONSE_OK", some "ACCEPTED", none⟩ := by
    simp [handle_driver_response, h, hp]
  have hclosed := processAccepts_closed rid ds (accept_ride_request db rid d).1
    { r with driverId := some d, status := "ACCEPTED" } hacc (by simp)
  constructor
  · simp [processAccepts, hdb, hresp, hclosed]
  · simp [processAccepts, hdb, hclosed, hacc]

/-- Witness for `c1_at_most_one_acceptance`: drivers 7, 8, 9 attempt to accept
pending ride 1 of `dbC1` in turn; driver 7 wins, the others get `CLOSED`. -/
theorem c1_witness :
    (processAccepts 1 dbC1 [7, 8, 9]).2
        = [⟨"DRIVER_RESPONSE_OK", some "ACCEPTED", none⟩,
           ⟨"DRIVER_RESPONSE_OK", some "CLOSED", none⟩,
           ⟨"DRIVER_RESPONSE_OK", some "CLOSED", none⟩]
    ∧ get_ride_by_id (processAccepts 1 dbC1 [7, 8, 9]).1 1
        = some { rideC1 with driverId := some 7, status := "ACCEPTED" } := by
  have h := c1_at_most_one_acceptance dbC1 1 rideC1 7 [8, 9]
    (by decide) (by decide) (by decide)
  exact ⟨by simpa using h.1, by simpa using h.2⟩

/-- C2 counterexample: cancelling pending ride 1 of `dbC1` takes the ride out
of `PENDING` (status becomes `CANCELLED`) yet all three `ride_offers` rows of
the ride remain stored — `handle_cancel_ride` deletes no offers. -/
theorem c2_counterexample :
    get_ride_by_id (handle_cancel_ride dbC1 (some 1)).db 1
        = some { rideC1 with status := "CANCELLED" }
    ∧ (handle_cancel_ride dbC1 (some 1)).db.rideOffers.filter
        (fun o => decide (o.rideId = 1)) = [⟨1, 7⟩, ⟨1, 8⟩, ⟨1, 9⟩] := by
  decide

/-- C2 (amended): after a driver's accept, zero `ride_offers` rows remain for
the ride; after `CANCEL_RIDE` of a `PENDING` ride the ride leaves `PENDING`
(status `CANCELLED`) but its `ride_offers` rows are left untouched. -/
theorem c2_offer_cleanup_amended (db : DB) (rid d : Nat) (r : Ride)
    (h : get_ride_by_id db rid = some r) (hp : r.status = "PENDING") :
    (handle_driver_response db (some rid) (some "ACCEPTED") (some d) none).db.rideOffers.filter
        (fun o => decide (o.rideId = rid)) = []
    ∧ (handle_cancel_ride db (some rid)).db.rideOffers = db.rideOffers
    ∧ get_ride_by_id (handle_cancel_ride db (some rid)).db rid
        = some { r with status := "CANCELLED" } := by
  have hnc : r.status ≠ "COMPLETED" := by rw [hp]; decide
  refine ⟨?_, ?_, ?_⟩
  · have hdb : (handle_driver_response db (some rid) (some "ACCEPTED") (some d) none).db
        = (accept_ride_request db rid d).1 := by
      simp [handle_driver_response, h, hp]
    rw [hdb]
    show (db.rideOffers.filter (fun o => !(decide (o.rideId = rid)))).filter
        (fun o => decide (o.rideId = rid)) = []
    rw [List.filter_filter]
    apply List.filter_eq_nil_iff.mpr
    intro o _
    cases hb : decide (o.rideId = rid) <;> simp [hb]
  · simp [handle_cancel_ride, h, hnc, update_ride_status]
  · have hdb : (handle_cancel_ride db (some rid)).db
        = update_ride_status db rid "CANCELLED" := by
      simp [handle_cancel_ride, h, hnc]
    rw [hdb, get_ride_update_status, h]
    rfl

/-- Witness for `c2_offer_cleanup_amended` on `dbC1`'s pending ride 1. -/
theorem c2_witness :
    (handle_driver_response dbC1 (some 1) (some "ACCEPTED") (some 7) none).db.rideOffers.filter
        (fun o => decide (o.rideId = 1)) = []
    ∧ (handle_cancel_ride dbC1 (some 1)).db.rideOffers = dbC1.rideOffers
    ∧ get_ride_by_id (handle_cancel_ride dbC1 (some 1)).db 1
        = some { rideC1 with status := "CANCELLED" } :=
  c2_offer_cleanup_amended dbC1 1 7 rideC1 (by decide) (by decide)

/-- C5 counterexample: driver 7 denies pending ride 1 of `dbC1`, yet driver
7's own offer row `⟨1, 7⟩` (and every other offer) is still stored afterwards
— the deny branch of `handle_driver_response` removes nothing. -/
theorem c5_counterexample :
    (handle_driver_response dbC1 (some 1) (some "DENIED") (some 7) none).db.rideOffers
        = [⟨1, 7⟩, ⟨1, 8⟩, ⟨1, 9⟩]
    ∧ (⟨1, 7⟩ : RideOffer)
        ∈ (handle_driver_response dbC1 (some 1) (some "DENIED") (some 7) none).db.rideOffers := by
  decide

/-- C5 (amended): a `DENIED` response on a `PENDING` ride mutates nothing at
all — every `ride_offers` row, the denying driver's own included, stays in
place and the ride stays `PENDING` — while the passenger is notified of the
decline and the driver gets the `DENIED` acknowledgement. -/
theorem c5_deny_amended (db : DB) (rid d pid : Nat) (r : Ride) (pu : User)
    (h : get_ride_by_id db rid = some r) (hp : r.status = "PENDING")
    (hpid : r.passengerId = some pid) (hpu : get_user_by_id db pid = some pu) :
    handle_driver_response db (some rid) (some "DENIED") (some d) none
      = ⟨db, ⟨"DRIVER_RESPONSE_OK", some "DENIED", none⟩,
         [(pid, ⟨"DRIVER_RESPONSE", some "DENIED", none⟩)]⟩ := by
  simp [handle_driver_response, h, hp, hpid, hpu]

/-- Witness for `c5_deny_amended`: driver 7 denies ride 1 of `dbC1`. -/
theorem c5_witness :
    handle_driver_response dbC1 (some 1) (some "DENIED") (some 7) none
      = ⟨dbC1, ⟨"DRIVER_RESPONSE_OK", some "DENIED", none⟩,
         [(5, ⟨"DRIVER_RESPONSE", some "DENIED", none⟩)]⟩ :=
  c5_deny_amended dbC1 1 7 5 rideC1 ⟨5, "p5", false, some "hamra", 0, true⟩
    (by decide) (by decide) (by decide) (by decide)

/-- C3: whenever the two-sided filter leaves no eligible driver (which also
covers `find_drivers` returning nothing, since the filter of an empty list is
empty), `handle_broadcast_ride_request` answers `NO_DRIVERS_FOUND`, pushes
nothing, and leaves the stored state exactly as it was — no `rides` row and no
`ride_offers` row is persisted. -/
theorem c3_no_orphan_rides (db : DB) (pid : Nat) (direction : String)
    (day : Weekday) (t : Nat) (area : String) (now : Int)
    (h : eligible_drivers db pid direction day t area = []) :
    handle_broadcast_ride_request db pid direction day t area now
      = ⟨db, ⟨"NO_DRIVERS_FOUND", none, none⟩, []⟩ := by
  unfold handle_broadcast_ride_request
  by_cases hd : (find_drivers db direction day t area (passengerMinOf db pid)).isEmpty
  · simp [hd]
  · simp [hd, h]

/-- Witness for `c3_no_orphan_rides`: in `dbC9` there are no drivers at all,
so passenger 1's broadcast stores nothing. -/
theorem c3_witness :
    handle_broadcast_ride_request dbC9 1 "to aub" .monday 480 "hamra" 0
      = ⟨dbC9, ⟨"NO_DRIVERS_FOUND", none, none⟩, []⟩ :=
  c3_no_orphan_rides dbC9 1 "to aub" .monday 480 "hamra" 0 (by decide)

/-- C4 (code bug): `strptime(day, "%A")` ignores the weekday name and
defaults to Monday 1900-01-01, so the source's crossover second bucket
`next_day_str` is the constant Tuesday rather than the calendar day after the
request day — the claimed general rule holds only for Monday requests.  At
the failing input, a Wednesday 23:55 request against `dbC4`: the driver
scheduled Thursday 00:05, whom the claimed rule returns (the spec window
holds of that row), is not found, while the driver scheduled Tuesday 00:05 —
outside the spec window — is returned.  For a Monday request (where Tuesday
happens to be the calendar successor) the code's window test agrees with the
spec's rule, and the same-day bucket behaves on Wednesday too (the 23:50
driver is returned at 23:50, not at 00:10). -/
theorem c4_midnight_wraparound_bug :
    (∀ day : Weekday, next_day_str day = .tuesday)
    ∧ (∀ s : Schedule, matchWindow .monday 1435 s = true ↔ specCrossWindow .monday 1435 s)
    ∧ specCrossWindow .wednesday 1435 ⟨2, .thursday, 5, "to aub", some "hamra"⟩
    ∧ 2 ∉ find_drivers dbC4 "to aub" .wednesday 1435 "hamra" 0
    ∧ ¬ specCrossWindow .wednesday 1435 ⟨3, .tuesday, 5, "to aub", some "hamra"⟩
    ∧ 3 ∈ find_drivers dbC4 "to aub" .wednesday 1435 "hamra" 0
    ∧ 1 ∈ find_drivers dbC4 "to aub" .wednesday 1430 "hamra" 0
    ∧ 1 ∉ find_drivers dbC4 "to aub" .wednesday 10 "hamra" 0 := by
  refine ⟨fun day => rfl, ?_, ?_, ?_, ?_, ?_, ?_, ?_⟩
  · intro s
    simp [matchWindow, specCrossWindow, next_day_str, calendarNextDay]
  · exact Or.inr ⟨rfl, by norm_num⟩
  · decide
  · rintro (⟨h, -⟩ | ⟨h, -⟩) <;> exact absurd h (by decide)
  · decide
  · decide
  · decide

theorem length_updateFirstRating (rid rater : Nat) (rated : Option Nat) (v : Int)
    (role : String) (l : List Rating) :
    (updateFirstRating rid rater rated v role l).length = l.length := by
  induction l with
  | nil => rfl
  | cons r rs ih =>
    unfold updateFirstRating
    cases hb : (decide (r.rideId = rid) && decide (r.raterUserId = rater)) with
    | true => simp [hb]
    | false => simp [hb, ih]

theorem countP_updateFirstRating (rid rater : Nat) (rated : Option Nat) (v : Int)
    (role : String) (l : List Rating) :
    (updateFirstRating rid rater rated v role l).countP
        (fun x => decide (x.rideId = rid) && decide (x.raterUserId = rater))
      = l.countP (fun x => decide (x.rideId = rid) && decide (x.raterUserId = rater)) := by
  induction l with
  | nil => rfl
  | cons r rs ih =>
    unfold updateFirstRating
    cases hb : (decide (r.rideId = rid) && decide (r.raterUserId = rater)) with
    | true => simp [List.countP_cons, hb]
    | false => simp [List.countP_cons, hb, ih]

/-- C6: for a completed ride and either participant, `UPDATE_RATING` succeeds
exactly when `now - completed_at` is at most 36 hours, failing otherwise with
the "Rating window closed" reason and no state change; and the upsert never
duplicates: when a (ride, rater) row already exists a successful re-submission
keeps the number of rating rows unchanged, and at most one row per
(ride, rater) pair is preserved. -/
theorem c6_rating_window (db : DB) (now : Int) (rid rater : Nat) (v : Int)
    (r : Ride) (c : Int)
    (h : get_ride_by_id db rid = some r)
    (hc : r.completedAt = some c)
    (hpart : r.passengerId = some rater ∨ r.driverId = some rater) :
    ((handle_update_rating db now rid rater v).resp.type = "UPDATE_RATING_OK"
        ↔ now - c ≤ 36 * 60)
    ∧ (¬ now - c ≤ 36 * 60 →
        handle_update_rating db now rid rater v
          = ⟨db, ⟨"UPDATE_RATING_FAIL", none, some "Rating window closed"⟩, []⟩)
    ∧ (db.ratings.any
          (fun x => decide (x.rideId = rid) && decide (x.raterUserId = rater)) = true →
        (handle_update_rating db now rid rater v).db.ratings.length
          = db.ratings.length)
    ∧ (db.ratings.countP
          (fun x => decide (x.rideId = rid) && decide (x.raterUserId = rater)) ≤ 1 →
        (handle_update_rating db now rid rater v).db.ratings.countP
            (fun x => decide (x.rideId = rid) && decide (x.raterUserId = rater)) ≤ 1) := by
  have hpart' : ¬ (r.passengerId ≠ some rater ∧ r.driverId ≠ some rater) := by
    rcases hpart with hp | hp <;> simp [hp]
  by_cases hw : now - c ≤ 36 * 60
  · have hce : can_edit_rating now r = true := by
      simp only [can_edit_rating, hc]
      exact decide_eq_true hw
    have hres : handle_update_rating db now rid rater v
        = ⟨upsert_rating db
            (if r.passengerId = some rater then (r.driverId, "driver")
             else (r.passengerId, "passenger")).1 rater v
            (if r.passengerId = some rater then (r.driverId, "driver")
             else (r.passengerId, "passenger")).2 rid,
           ⟨"UPDATE_RATING_OK", none, none⟩, []⟩ := by
      simp only [handle_update_rating, h]
      rw [if_neg hpart', if_neg (by simp [hce])]
    refine ⟨?_, ?_, ?_, ?_⟩
    · rw [hres]
      simp only [OutMsg.mk.injEq]
      simp
      omega
    · intro hcontra; exact absurd hw hcontra
    · intro hany
      rw [hres]
      show (upsert_rating db _ rater v _ rid).ratings.length = db.ratings.length
      unfold upsert_rating
      rw [if_pos hany]
      exact length_updateFirstRating rid rater _ v _ db.ratings
    · intro hcount
      rw [hres]
      show (upsert_rating db _ rater v _ rid).ratings.countP _ ≤ 1
      unfold upsert_rating
      by_cases hany : db.ratings.any
          (fun x => decide (x.rideId = rid) && decide (x.raterUserId = rater)) = true
      · rw [if_pos hany]
        show (updateFirstRating rid rater _ v _ db.ratings).countP _ ≤ 1
        rw [countP_updateFirstRating]
        exact hcount
      · rw [if_neg hany]
        show (db.ratings ++ [_]).countP _ ≤ 1
        rw [List.countP_append]
        have hanyf : db.ratings.any
            (fun x => decide (x.rideId = rid) && decide (x.raterUserId = rater)) = false := by
          simpa using hany
        have hzero : db.ratings.countP
            (fun x => decide (x.rideId = rid) && decide (x.raterUserId = rater)) = 0 :=
          List.countP_eq_zero.mpr (List.any_eq_false.mp hanyf)
        rw [hzero]
        simp [List.countP_cons]
  · have hce : can_edit_rating now r = false := by
      simp only [can_edit_rating, hc]
      exact decide_eq_false hw
    have hres : handle_update_rating db now rid rater v
        = ⟨db, ⟨"UPDATE_RATING_FAIL", none, some "Rating window closed"⟩, []⟩ := by
      simp only [handle_update_rating, h]
      rw [if_neg hpart', if_pos (by simp [hce])]
    refine ⟨?_, fun _ => hres, ?_, ?_⟩
    · rw [hres]
      simp
      omega
    · intro _; rw [hres]
    · intro hcount; rw [hres]; exact hcount

/-- Witness for `c6_rating_window`: passenger 5 re-rates completed ride 2 of
`dbC6` 35 hours after completion (succeeds, row count unchanged) and tries
again at 37 hours (rejected with the window-closed reason). -/
theorem c6_witness :
    (handle_update_rating dbC6 2100 2 5 4).resp.type = "UPDATE_RATING_OK"
    ∧ (handle_update_rating dbC6 2100 2 5 4).db.ratings.length
        = dbC6.ratings.length
    ∧ handle_update_rating dbC6 2220 2 5 4
        = ⟨dbC6, ⟨"UPDATE_RATING_FAIL", none, some "Rating window closed"⟩, []⟩ := by
  have h1 := c6_rating_window dbC6 2100 2 5 4 rideC6 0
    (by decide) (by decide) (Or.inl (by decide))
  have h2 := c6_rating_window dbC6 2220 2 5 4 rideC6 0
    (by decide) (by decide) (Or.inl (by decide))
  exact ⟨h1.1.mpr (by decide), h1.2.2.1 (by decide), h2.2.1 (by decide)⟩

/-- C7: with a synchronous call in flight (non-empty expected set), starting a
second synchronous call fails at once with the busy error, sends nothing, and
returns the multiplexer state untouched; and any received frame whose type is
outside the expected set is appended to the async event queue, leaving the
pending synchronous response slot untouched. -/
theorem c7_mux_exclusivity (st : MuxState) (msg : WireMsg) (expected : List String)
    (h : st.waitTypes ≠ []) :
    sendAndWaitStart st msg expected
        = ⟨st, none, some "Another request is already in-flight."⟩
    ∧ (∀ data : WireMsg, data.type ∉ st.waitTypes →
        recvLoopStep st data
          = ⟨st.waitTypes, st.waitResponse, st.asyncEvents ++ [data]⟩) := by
  constructor
  · simp [sendAndWaitStart, h]
  · intro data hd
    simp [recvLoopStep, hd]

/-- Witness for `c7_mux_exclusivity`: a LOGIN call is awaiting
`LOGIN_OK`/`LOGIN_FAIL`; a SET_ROLE call started meanwhile is rejected, and a
pushed `CHAT_MESSAGE` frame is queued rather than returned as the response. -/
theorem c7_witness :
    sendAndWaitStart ⟨["LOGIN_OK", "LOGIN_FAIL"], none, []⟩ ⟨"SET_ROLE", ""⟩
        ["SET_ROLE_OK"]
        = ⟨⟨["LOGIN_OK", "LOGIN_FAIL"], none, []⟩, none,
           some "Another request is already in-flight."⟩
    ∧ recvLoopStep ⟨["LOGIN_OK", "LOGIN_FAIL"], none, []⟩ ⟨"CHAT_MESSAGE", ""⟩
        = ⟨["LOGIN_OK", "LOGIN_FAIL"], none, [⟨"CHAT_MESSAGE", ""⟩]⟩ := by
  have h := c7_mux_exclusivity ⟨["LOGIN_OK", "LOGIN_FAIL"], none, []⟩
    ⟨"SET_ROLE", ""⟩ ["SET_ROLE_OK"] (by decide)
  exact ⟨h.1, h.2 ⟨"CHAT_MESSAGE", ""⟩ (by decide)⟩

/-- C9 counterexample: in `dbC9` user 1 is a passenger; a `SET_ROLE` request
with role "passenger" succeeds (`SET_ROLE_OK`) and rewrites the row's area and
`min_rating` — a successful `SET_ROLE` that neither upgrades a passenger to
driver nor updates a driver's settings, contrary to the claim's final clause. -/
theorem c9_counterexample :
    (handle_set_role dbC9 1 "passenger" (some "new area") (some 3)).resp
        = ⟨"SET_ROLE_OK", none, none⟩
    ∧ get_user_by_id (handle_set_role dbC9 1 "passenger" (some "new area") (some 3)).db 1
        = some ⟨1, "alice", false, some "new area", 3, true⟩
    ∧ get_user_by_id dbC9 1 = some ⟨1, "alice", false, some "old area", 0, true⟩
    ∧ ("passenger" : String) ≠ "driver" := by
  decide

/-- C9 (amended): a stored driver requesting any role other than "driver" is
rejected with `SET_ROLE_FAIL` reason "Cannot change from driver to passenger"
and the store is left completely unchanged; a driver's `SET_ROLE` can only
succeed with role "driver" (so a driver is never downgraded) — but `SET_ROLE`
also lets a passenger keep role "passenger" while updating area/min_rating. -/
theorem c9_role_downgrade_amended (db : DB) (uid : Nat) (u : User) (role : String)
    (area : Option String) (minR : Option Int)
    (h : get_user_by_id db uid = some u) (hd : u.isDriver = true) :
    (role ≠ "driver" →
      handle_set_role db uid role area minR
        = ⟨db, ⟨"SET_ROLE_FAIL", none,
                some "Cannot change from driver to passenger"⟩, []⟩)
    ∧ ((handle_set_role db uid role area minR).resp.type = "SET_ROLE_OK" →
        role = "driver") := by
  by_cases hr : role = "driver"
  · refine ⟨fun hcontra => absurd hr hcontra, fun _ => hr⟩
  · constructor
    · intro _
      simp [handle_set_role, h, hd, hr]
    · intro hok
      exfalso
      have : handle_set_role db uid role area minR
          = ⟨db, ⟨"SET_ROLE_FAIL", none,
                  some "Cannot change from driver to passenger"⟩, []⟩ := by
        simp [handle_set_role, h, hd, hr]
      rw [this] at hok
      simp at hok

/-- Witness for `c9_role_downgrade_amended`: driver 7 of `dbC1` asks to become
a passenger and is refused with the store untouched. -/
theorem c9_witness :
    handle_set_role dbC1 7 "passenger" (some "hamra") none
        = ⟨dbC1, ⟨"SET_ROLE_FAIL", none,
                  some "Cannot change from driver to passenger"⟩, []⟩
    ∧ ((handle_set_role dbC1 7 "passenger" (some "hamra") none).resp.type
          = "SET_ROLE_OK" → ("passenger" : String) = "driver") := by
  have h := c9_role_downgrade_amended dbC1 7 ⟨7, "d7", true, some "hamra", 0, true⟩
    "passenger" (some "hamra") none (by decide) (by decide)
  exact ⟨h.1 (by decide), h.2⟩

theorem charsEquiv_map_normChar : ∀ (as bs : List Char),
    charsEquiv as bs = true → as.map normChar = bs.map normChar
  | [], [], _ => rfl
  | c :: cs, d :: ds, h => by
    unfold charsEquiv at h
    rw [Bool.and_eq_true] at h
    have hcd : normChar c = normChar d := of_decide_eq_true h.1
    simp [hcd, charsEquiv_map_normChar cs ds h.2]
  | [], _ :: _, h => by simp [charsEquiv] at h
  | _ :: _, [], h => by simp [charsEquiv] at h

theorem sepCaseEquiv_normalizeSched (a b : String) (h : sepCaseEquiv a b = true) :
    normalizeSched a = normalizeSched b := by
  unfold normalizeSched
  exact congrArg String.mk (charsEquiv_map_normChar a.data b.data h)

theorem map_lowerChar_of_no_underscore (as : List Char)
    (h : as.all (fun c => !(decide (c = '_'))) = true) :
    as.map lowerChar = as.map normChar := by
  induction as with
  | nil => rfl
  | cons c cs ih =>
    rw [List.all_cons, Bool.and_eq_true] at h
    have hc : ¬ c = '_' := by simpa using h.1
    have hn : normChar c = lowerChar c := by simp [normChar, hc]
    simp [hn, ih h.2]

/-- C8 counterexample: driver 1 of `dbC8` has schedule area "hamra area"; the
request area "hamra_area" is equal to it up to '_'/' ' substitution, yet
`find_drivers` returns nothing for it (while the space-spelled request
matches) — the request side of the area comparison never maps '_' to ' '. -/
theorem c8_counterexample :
    sepCaseEquiv "hamra_area" "hamra area" = true
    ∧ find_drivers dbC8 "to aub" .monday 600 "hamra_area" 0 = []
    ∧ find_drivers dbC8 "to aub" .monday 600 "hamra area" 0 = [1] := by
  decide

/-- C8 (amended): the direction comparison is case- and separator-insensitive
on both sides (for strings whose normal form carries no surrounding
whitespace), but the area comparison maps '_' to ' ' only on the schedule
side: a request area already free of underscores matches any schedule area
equal to it up to case and schedule-side '_'/' ' substitution, and under these
conditions a schedule row passes the full matcher exactly when it belongs to
the driver and satisfies the time window. -/
theorem c8_case_separator_amended (rd sd ra sa : String)
    (hdir : sepCaseEquiv rd sd = true)
    (hsd : stripStr (normalizeSched sd) = normalizeSched sd)
    (harea : sepCaseEquiv ra sa = true)
    (hsa : stripStr (normalizeSched sa) = normalizeSched sa)
    (hra : ra.data.all (fun c => !(decide (c = '_'))) = true) :
    normDirection rd = normalizeSched sd
    ∧ normAreaReq ra = normalizeSched sa
    ∧ ∀ (day : Weekday) (t uid : Nat) (s : Schedule),
        s.direction = sd → s.area = some sa →
        schedMatches (normDirection rd) (normAreaReq ra) day t uid s
          = (decide (s.userId = uid) && matchWindow day t s) := by
  have h1 : normDirection rd = normalizeSched sd := by
    unfold normDirection
    rw [sepCaseEquiv_normalizeSched rd sd hdir, hsd]
  have h2 : normAreaReq ra = normalizeSched sa := by
    have hl : lowerStr ra = normalizeSched ra := by
      unfold lowerStr normalizeSched
      exact congrArg String.mk (map_lowerChar_of_no_underscore ra.data hra)
    unfold normAreaReq
    rw [hl, sepCaseEquiv_normalizeSched ra sa harea, hsa]
  refine ⟨h1, h2, ?_⟩
  intro day t uid s hsdir hsarea
  unfold schedMatches
  rw [hsdir, hsarea, h1, h2]
  simp

/-- Witness for `c8_case_separator_amended` on the strings "To_AUB"/"to aub"
and "Hamra Area"/"hamra_area". -/
theorem c8_witness :
    normDirection "To_AUB" = normalizeSched "to aub"
    ∧ normAreaReq "Hamra Area" = normalizeSched "hamra_area"
    ∧ schedMatches (normDirection "To_AUB") (normAreaReq "Hamra Area") .monday 600 1
        ⟨1, .monday, 600, "to aub", some "hamra_area"⟩
      = (decide ((1 : Nat) = 1)
          && matchWindow .monday 600 ⟨1, .monday, 600, "to aub", some "hamra_area"⟩) := by
  have h := c8_case_separator_amended "To_AUB" "to aub" "Hamra Area" "hamra_area"
    (by decide) (by decide) (by decide) (by decide) (by decide)
  exact ⟨h.1, h.2.1, h.2.2 .monday 600 1 _ rfl rfl⟩

/-- C10: a user with no rating rows for a role has aggregate rating 0 (not
NULL and not some neutral default): `get_average_rating` returns 0, an
unrated driver is excluded from `find_drivers` whenever the passenger's
minimum-driver-rating preference is positive, and an unrated passenger is
excluded from every driver whose own minimum-passenger-rating preference is
positive. -/
theorem c10_unrated_rating_is_zero (db : DB) (d pid : Nat) (direction : String)
    (day : Weekday) (t : Nat) (area : String) (minR : Int) (pu du : User)
    (hd0 : db.ratings.filter
        (fun x => decide (x.ratedUserId = some d) && decide (x.role = "driver")) = [])
    (hp0 : db.ratings.filter
        (fun x => decide (x.ratedUserId = some pid) && decide (x.role = "passenger")) = [])
    (hpu : get_user_by_id db pid = some pu)
    (hdu : get_user_by_id db d = some du)
    (hm : 0 < minR) (hdm : 0 < du.minRating) :
    get_average_rating db d "driver" = 0
    ∧ d ∉ find_drivers db direction day t area minR
    ∧ d ∉ eligible_drivers db pid direction day t area := by
  have ha : get_average_rating db d "driver" = 0 := by
    unfold get_average_rating
    rw [hd0]
    simp
  have hpa : get_average_rating db pid "passenger" = 0 := by
    unfold get_average_rating
    rw [hp0]
    simp
  have havg : passengerAvgOf db pid = 0 := by
    simp [passengerAvgOf, hpu, hpa]
  refine ⟨ha, ?_, ?_⟩
  · intro hmem
    unfold find_drivers at hmem
    rw [List.mem_map] at hmem
    obtain ⟨u, hu, hid⟩ := hmem
    rw [List.mem_filter] at hu
    obtain ⟨-, hpred⟩ := hu
    rw [Bool.and_eq_true, Bool.and_eq_true] at hpred
    have hle : (minR : ℚ) ≤ get_average_rating db u.id "driver" :=
      of_decide_eq_true hpred.2
    rw [hid, ha] at hle
    have h0 : (0 : ℚ) < (minR : ℚ) := by exact_mod_cast hm
    linarith
  · intro hmem
    simp only [eligible_drivers, List.mem_filter] at hmem
    obtain ⟨-, hpred⟩ := hmem
    simp only [hdu, havg] at hpred
    have hle : (du.minRating : ℚ) ≤ 0 := of_decide_eq_true hpred
    have h0 : (0 : ℚ) < (du.minRating : ℚ) := by exact_mod_cast hdm
    linarith

/-- Witness for `c10_unrated_rating_is_zero`: in `dbC10` driver 3 and
passenger 5 are unrated; driver 3 is excluded both by a positive passenger
preference and by their own positive `min_rating` against the unrated
passenger. -/
theorem c10_witness :
    get_average_rating dbC10 3 "driver" = 0
    ∧ 3 ∉ find_drivers dbC10 "to aub" .monday 480 "hamra" 1
    ∧ 3 ∉ eligible_drivers dbC10 5 "to aub" .monday 480 "hamra" :=
  c10_unrated_rating_is_zero dbC10 3 5 "to aub" .monday 480 "hamra" 1
    ⟨5, "p5", false, some "hamra", 0, true⟩ ⟨3, "d3", true, some "hamra", 1, true⟩
    (by decide) (by decide) (by decide) (by decide) (by decide) (by decide)
